import Mathlib

/-!
Verification of the management-command encoder in `src/Mgmt.cpp` (namespace
`ggk`, class `Mgmt`).  Strings (`std::string`) are modelled as lists of byte
values, packed structures as their serialized byte lists, and the external
adapter transport as a function from command records to booleans.
-/

namespace Ggk

/-- One byte of a packed request structure; the serializers keep the values
below 256. -/
abbrev Byte := Nat

/-- Little-endian bytes of a `uint16_t` field. -/
def u16le (x : Nat) : List Byte :=
  [x % 256, x / 256 % 256]

/-- Little-endian bytes of a `uint32_t` field. -/
def u32le (x : Nat) : List Byte :=
  [x % 256, x / 256 % 256, x / 2 ^ 16 % 256, x / 2 ^ 24 % 256]

/-- Byte-array write `memcpy(&arr[off], src, src.length)`. -/
def memcpyAt (arr : List Byte) (off : Nat) (src : List Byte) : List Byte :=
  arr.take off ++ src ++ arr.drop (off + src.length)

/-- Byte-array write `memset(&arr[off], 0, len)`. -/
def memsetAt (arr : List Byte) (off len : Nat) : List Byte :=
  arr.take off ++ List.replicate len 0 ++ arr.drop (off + len)

/-- Modelled from the spec: `kMaxAdvertisingNameLength` is declared in
`Mgmt.h`, which is not part of the provided sources; §4.1 of the spec states
that the full name is truncated to at most 248 bytes. -/
def kMaxAdvertisingNameLength : Nat := 248

/-- Modelled from the spec: `kMaxAdvertisingShortNameLength` is declared in
`Mgmt.h`, which is not part of the provided sources; §4.1 of the spec states
that the short name is truncated to at most 10 bytes. -/
def kMaxAdvertisingShortNameLength : Nat := 10

/-- Modelled from the spec: the command opcodes are declared in the missing
`Mgmt.h`; §6 frames them as 16-bit opcodes of the kernel management protocol.
No claim depends on the numeric values, only on which setter uses which
constant. -/
def ESetPoweredCommand : Nat := 0x0005

/-- Modelled from the spec: opcode constant from the missing `Mgmt.h`. -/
def ESetDiscoverableCommand : Nat := 0x0006

/-- Modelled from the spec: opcode constant from the missing `Mgmt.h`. -/
def ESetConnectableCommand : Nat := 0x0007

/-- Modelled from the spec: opcode constant from the missing `Mgmt.h`. -/
def ESetBondableCommand : Nat := 0x0009

/-- Modelled from the spec: opcode constant from the missing `Mgmt.h`. -/
def ESetLowEnergyCommand : Nat := 0x000D

/-- Modelled from the spec: opcode constant from the missing `Mgmt.h`. -/
def ESetLocalNameCommand : Nat := 0x000F

/-- Modelled from the spec: opcode constant from the missing `Mgmt.h`. -/
def ESetAdvertisingCommand : Nat := 0x0029

/-- Modelled from the spec: opcode constant from the missing `Mgmt.h`. -/
def ESetBREDRCommand : Nat := 0x002A

/-- Modelled from the spec: opcode constant from the missing `Mgmt.h`. -/
def ESetSecureConnectionsCommand : Nat := 0x002D

/-- Modelled from the spec: opcode constant from the missing `Mgmt.h`. -/
def EAddAdvertisingCommand : Nat := 0x003E

/-- Modelled from the spec: `HciAdapter::HciHeader` is declared in the missing
`HciAdapter.h`; §6 gives its packed layout as opcode (16-bit), controller
index (16-bit) and payload length (16-bit), native byte order, no padding. -/
structure HciHeader where
  code : Nat
  controllerId : Nat
  dataSize : Nat
deriving Repr, DecidableEq

/-- Packed size of `HciAdapter::HciHeader`: three 16-bit fields. -/
def hciHeaderSize : Nat := 6

/-- A command record as handed to the transport: the header fields together
with the in-memory payload bytes of the packed request structure (everything
after the header). -/
structure CommandRecord where
  header : HciHeader
  payload : List Byte
deriving Repr, DecidableEq

/-- `Mgmt::truncateName` (Mgmt.cpp lines 247-253). -/
def truncateName (name : List Byte) : List Byte :=
  if name.length ≤ kMaxAdvertisingNameLength then name
  else name.take kMaxAdvertisingNameLength

/-- `Mgmt::truncateShortName` (Mgmt.cpp lines 257-263). -/
def truncateShortName (name : List Byte) : List Byte :=
  if name.length ≤ kMaxAdvertisingShortNameLength then name
  else name.take kMaxAdvertisingShortNameLength

/-- One `snprintf(field, size, "%s", s.c_str())`: copies at most `size - 1`
bytes of `s`, stopping at the first null byte, and writes a terminating null
byte; modelled as a `memcpy` into the field. -/
def snprintfS (size : Nat) (field : List Byte) (s : List Byte) : List Byte :=
  memcpyAt field 0 ((s.takeWhile (fun b => b ≠ 0)).take (size - 1) ++ [0])

/-- One fixed-size character-array field of `Mgmt::setName`'s request:
`memset` to zero, then `snprintf` of the string, starting from the
indeterminate stack bytes `junk`. -/
def setNameField (size : Nat) (junk s : List Byte) : List Byte :=
  snprintfS size (memsetAt junk 0 size) s

/-- Payload bytes of `Mgmt::setName`'s `SRequest` past the header: a 249-byte
`name` array and an 11-byte `shortName` array, packed. -/
def setNamePayloadSize : Nat := 249 + 11

/-- `Mgmt::setName`'s request record (Mgmt.cpp lines 52-71).  `junkName` and
`junkShort` stand for the indeterminate initial bytes of the stack-allocated
request's two array fields; both arrays are fully overwritten by the
`memset`/`snprintf` pairs. -/
def setName (controllerIndex : Nat) (name shortName junkName junkShort : List Byte) :
    CommandRecord :=
  { header :=
      { code := ESetLocalNameCommand
        controllerId := controllerIndex
        dataSize := hciHeaderSize + setNamePayloadSize - hciHeaderSize }
    payload :=
      setNameField 249 junkName (truncateName name) ++
      setNameField 11 junkShort (truncateShortName shortName) }

/-- `Mgmt::setDiscoverable`'s request record (Mgmt.cpp lines 86-97): a 1-byte
`disc` field followed by a packed 2-byte `timeout` field. -/
def setDiscoverable (controllerIndex disc timeout : Nat) : CommandRecord :=
  { header :=
      { code := ESetDiscoverableCommand
        controllerId := controllerIndex
        dataSize := hciHeaderSize + 3 - hciHeaderSize }
    payload := [disc % 256] ++ u16le timeout }

/-- `Mgmt::setState`'s request record (Mgmt.cpp lines 112-121): a single
1-byte `state` field. -/
def setState (commandCode controllerId newState : Nat) : CommandRecord :=
  { header :=
      { code := commandCode
        controllerId := controllerId
        dataSize := hciHeaderSize + 1 - hciHeaderSize }
    payload := [newState % 256] }

/-- Constant `ADVERTISING_SHORTNAME_MAX_LEN` of `Mgmt::addAdvertising`. -/
def ADVERTISING_SHORTNAME_MAX_LEN : Nat := 8

/-- Constant `ADVERTISING_UUID_LEN` of `Mgmt::addAdvertising`. -/
def ADVERTISING_UUID_LEN : Nat := 2

/-- Constant `ADVERTISING_MAX_DATALEN` of `Mgmt::addAdvertising`. -/
def ADVERTISING_MAX_DATALEN : Nat :=
  2 + ADVERTISING_SHORTNAME_MAX_LEN + 2 + ADVERTISING_UUID_LEN

/-- The `data` array of `Mgmt::addAdvertising`'s request after the writes of
Mgmt.cpp lines 224-231, starting from the indeterminate stack bytes `junk`;
`n` is `shortNameEffectiveLen`. -/
def advData (junk : List Byte) (uuid : Nat) (shortName : List Byte) (n : Nat) :
    List Byte :=
  let d0 := memcpyAt junk 0 [(ADVERTISING_UUID_LEN + 1) % 256]
  let d1 := memcpyAt d0 1 [0x03]
  let d2 := memcpyAt d1 2 (u16le uuid)
  let d3 := memcpyAt d2 (2 + ADVERTISING_UUID_LEN) [(1 + n) % 256]
  let d4 := memcpyAt d3 (3 + ADVERTISING_UUID_LEN) [0x08]
  let d5 := memsetAt d4 (4 + ADVERTISING_UUID_LEN) ADVERTISING_SHORTNAME_MAX_LEN
  memcpyAt d5 (4 + ADVERTISING_UUID_LEN) (shortName.take n)

/-- `Mgmt::addAdvertising`'s request record (Mgmt.cpp lines 194-231) for an
already-substituted `shortName`/`uuid` pair.  `junk` stands for the
indeterminate initial bytes of the stack-allocated `data` array. -/
def addAdvRecord (controllerIndex : Nat) (shortName : List Byte) (uuid : Nat)
    (junk : List Byte) : CommandRecord :=
  let shortNameEffectiveLen := min ADVERTISING_SHORTNAME_MAX_LEN shortName.length
  let requestSize := hciHeaderSize + 1 + 4 + 2 + 2 + 1 + 1 + ADVERTISING_MAX_DATALEN
  { header :=
      { code := EAddAdvertisingCommand
        controllerId := controllerIndex
        dataSize :=
          requestSize - hciHeaderSize -
            (ADVERTISING_SHORTNAME_MAX_LEN - shortNameEffectiveLen) }
    payload :=
      [1] ++ u32le 3 ++ u16le 0 ++ u16le 0 ++
      [(ADVERTISING_MAX_DATALEN -
          (ADVERTISING_SHORTNAME_MAX_LEN - shortNameEffectiveLen)) % 256] ++
      [0] ++
      advData junk uuid shortName shortNameEffectiveLen }

/-- The function-local `static` pair (`kShortName`, `kUuid`) of
`Mgmt::addAdvertising` (Mgmt.cpp lines 187-188): `none` before the first call,
fixed at the first call's arguments from then on. -/
abbrev AdvCache := Option (List Byte × Nat)

/-- One call to `Mgmt::addAdvertising` (Mgmt.cpp lines 186-231): on the first
call the statics are initialized from that call's arguments, dereferencing
`uuid` — undefined behaviour, modelled as `none`, when that first call passes
a null pointer; on a null-pointer call the cached pair is substituted for the
arguments.  Returns the updated cache and the built record. -/
def addAdvertisingBuild (controllerIndex : Nat) (cache : AdvCache)
    (shortName : List Byte) (uuid : Option Nat) (junk : List Byte) :
    Option (AdvCache × CommandRecord) :=
  match cache with
  | none =>
    match uuid with
    | none => none
    | some u =>
      some (some (shortName, u), addAdvRecord controllerIndex shortName u junk)
  | some (kShortName, kUuid) =>
    match uuid with
    | none =>
      some (some (kShortName, kUuid),
        addAdvRecord controllerIndex kShortName kUuid junk)
    | some u =>
      some (some (kShortName, kUuid), addAdvRecord controllerIndex shortName u junk)

/-- Folds a list of `addAdvertising` calls (argument pairs, `none` standing
for a null `uuid` pointer) over the static cache, collecting the records
built; `none` overall marks the undefined first-call-with-null case. -/
def runAdvCalls (controllerIndex : Nat) (junk : List Byte) (cache : AdvCache) :
    List (List Byte × Option Nat) → Option (AdvCache × List CommandRecord)
  | [] => some (cache, [])
  | (sn, u) :: rest =>
    match addAdvertisingBuild controllerIndex cache sn u junk with
    | none => none
    | some (cache1, r) =>
      match runAdvCalls controllerIndex junk cache1 rest with
      | none => none
      | some (cache2, rs) => some (cache2, r :: rs)

/-- A whole call history of `Mgmt::addAdvertising` starting from the
uninitialized statics. -/
def addAdvertisingTrace (controllerIndex : Nat) (junk : List Byte)
    (calls : List (List Byte × Option Nat)) : Option (AdvCache × List CommandRecord) :=
  runAdvCalls controllerIndex junk none calls

/-- The submit-and-report tail shared by every setter (`if
(!sendCommand(request)) return false; return true;`): the boolean returned
and, for observability, the list of records passed to `sendCommand`. -/
def submitOnce (sendCommand : CommandRecord → Bool) (request : CommandRecord) :
    Bool × List CommandRecord :=
  if sendCommand request then (true, [request]) else (false, [request])

/-- `Mgmt::setName` including its transport call (Mgmt.cpp lines 52-79). -/
def setNameRun (sendCommand : CommandRecord → Bool) (controllerIndex : Nat)
    (name shortName junkName junkShort : List Byte) : Bool × List CommandRecord :=
  submitOnce sendCommand (setName controllerIndex name shortName junkName junkShort)

/-- `Mgmt::setDiscoverable` including its transport call (lines 86-105). -/
def setDiscoverableRun (sendCommand : CommandRecord → Bool)
    (controllerIndex disc timeout : Nat) : Bool × List CommandRecord :=
  submitOnce sendCommand (setDiscoverable controllerIndex disc timeout)

/-- `Mgmt::setState` including its transport call (lines 112-132). -/
def setStateRun (sendCommand : CommandRecord → Bool)
    (commandCode controllerId newState : Nat) : Bool × List CommandRecord :=
  submitOnce sendCommand (setState commandCode controllerId newState)

/-- `Mgmt::setPowered` (lines 137-139). -/
def setPoweredRun (sendCommand : CommandRecord → Bool) (controllerIndex : Nat)
    (newState : Bool) : Bool × List CommandRecord :=
  setStateRun sendCommand ESetPoweredCommand controllerIndex (if newState then 1 else 0)

/-- `Mgmt::setBredr` (lines 144-146). -/
def setBredrRun (sendCommand : CommandRecord → Bool) (controllerIndex : Nat)
    (newState : Bool) : Bool × List CommandRecord :=
  setStateRun sendCommand ESetBREDRCommand controllerIndex (if newState then 1 else 0)

/-- `Mgmt::setSecureConnections` (lines 151-153). -/
def setSecureConnectionsRun (sendCommand : CommandRecord → Bool)
    (controllerIndex newState : Nat) : Bool × List CommandRecord :=
  setStateRun sendCommand ESetSecureConnectionsCommand controllerIndex newState

/-- `Mgmt::setBondable` (lines 158-160). -/
def setBondableRun (sendCommand : CommandRecord → Bool) (controllerIndex : Nat)
    (newState : Bool) : Bool × List CommandRecord :=
  setStateRun sendCommand ESetBondableCommand controllerIndex (if newState then 1 else 0)

/-- `Mgmt::setConnectable` (lines 165-167). -/
def setConnectableRun (sendCommand : CommandRecord → Bool) (controllerIndex : Nat)
    (newState : Bool) : Bool × List CommandRecord :=
  setStateRun sendCommand ESetConnectableCommand controllerIndex (if newState then 1 else 0)

/-- `Mgmt::setLE` (lines 172-174). -/
def setLERun (sendCommand : CommandRecord → Bool) (controllerIndex : Nat)
    (newState : Bool) : Bool × List CommandRecord :=
  setStateRun sendCommand ESetLowEnergyCommand controllerIndex (if newState then 1 else 0)

/-- `Mgmt::setAdvertising` (lines 180-182). -/
def setAdvertisingRun (sendCommand : CommandRecord → Bool)
    (controllerIndex newState : Nat) : Bool × List CommandRecord :=
  setStateRun sendCommand ESetAdvertisingCommand controllerIndex newState

/-- `Mgmt::addAdvertising` including its transport call (lines 186-239). -/
def addAdvertisingRun (sendCommand : CommandRecord → Bool) (controllerIndex : Nat)
    (cache : AdvCache) (shortName : List Byte) (uuid : Option Nat)
    (junk : List Byte) : Option (AdvCache × (Bool × List CommandRecord)) :=
  match addAdvertisingBuild controllerIndex cache shortName uuid junk with
  | none => none
  | some (cache1, request) => some (cache1, submitOnce sendCommand request)

/-! Helper lemmas about the byte-array primitives. -/

lemma memsetAt_all (junk : List Byte) (size : Nat) (hj : junk.length = size) :
    memsetAt junk 0 size = List.replicate size 0 := by
  unfold memsetAt
  rw [List.take_zero, Nat.zero_add, List.drop_eq_nil_of_le hj.le]
  simp

lemma takeWhile_length_le (s : List Byte) :
    (s.takeWhile (fun b => b ≠ 0)).length ≤ s.length :=
  List.Sublist.length_le (List.takeWhile_sublist (fun b => b ≠ 0))

lemma setNameField_eq (size : Nat) (junk s : List Byte) (hj : junk.length = size)
    (hs : s.length < size) :
    setNameField size junk s =
      s.takeWhile (fun b => b ≠ 0) ++
        List.replicate (size - (s.takeWhile (fun b => b ≠ 0)).length) 0 := by
  have hw : (s.takeWhile (fun b => b ≠ 0)).length ≤ s.length := takeWhile_length_le s
  unfold setNameField snprintfS
  rw [memsetAt_all junk size hj,
    List.take_of_length_le (by omega : (s.takeWhile (fun b => b ≠ 0)).length ≤ size - 1)]
  unfold memcpyAt
  rw [List.take_zero, Nat.zero_add]
  simp only [List.nil_append, List.length_append, List.length_singleton]
  rw [List.drop_replicate, List.append_assoc]
  congr 1
  have h1 : size - (s.takeWhile (fun b => b ≠ 0)).length =
      (size - ((s.takeWhile (fun b => b ≠ 0)).length + 1)) + 1 := by omega
  rw [h1, List.replicate_succ]
  rfl

lemma setNameField_length (size : Nat) (junk s : List Byte) (hj : junk.length = size)
    (hs : s.length < size) : (setNameField size junk s).length = size := by
  have hw : (s.takeWhile (fun b => b ≠ 0)).length ≤ s.length := takeWhile_length_le s
  rw [setNameField_eq size junk s hj hs]
  simp only [List.length_append, List.length_replicate]
  omega

lemma setNameField_drop (size : Nat) (junk s : List Byte) (hj : junk.length = size)
    (hs : s.length < size) :
    (setNameField size junk s).drop s.length = List.replicate (size - s.length) 0 := by
  have hw : (s.takeWhile (fun b => b ≠ 0)).length ≤ s.length := takeWhile_length_le s
  rw [setNameField_eq size junk s hj hs]
  have h1 : s.length = (s.takeWhile (fun b => b ≠ 0)).length +
      (s.length - (s.takeWhile (fun b => b ≠ 0)).length) := by omega
  rw [h1, List.drop_append, List.drop_replicate]
  congr 1
  omega

lemma setNameField_nullfree (size : Nat) (junk s : List Byte) (hj : junk.length = size)
    (hs : s.length < size) (hz : ∀ b ∈ s, b ≠ 0) :
    setNameField size junk s = s ++ List.replicate (size - s.length) 0 := by
  have hsw : s.takeWhile (fun b => b ≠ 0) = s := by
    rw [List.takeWhile_eq_self_iff]
    intro a ha
    simpa using hz a ha
  rw [setNameField_eq size junk s hj hs, hsw]

lemma memcpyAt_zero (arr src : List Byte) :
    memcpyAt arr 0 src = src ++ arr.drop src.length := by
  simp [memcpyAt]

lemma memcpyAt_at_append (pre arr src : List Byte) (off : Nat) (h : pre.length = off) :
    memcpyAt (pre ++ arr) off src = pre ++ (src ++ arr.drop src.length) := by
  subst h
  unfold memcpyAt
  rw [List.take_left, List.drop_append, List.append_assoc]

lemma memsetAt_at_append (pre arr : List Byte) (off len : Nat) (h : pre.length = off) :
    memsetAt (pre ++ arr) off len = pre ++ (List.replicate len 0 ++ arr.drop len) := by
  subst h
  unfold memsetAt
  rw [List.take_left, List.drop_append, List.append_assoc]

/-- Normal form of the advertising `data` array: the writes of Mgmt.cpp lines
224-231 cover all fourteen bytes, so the indeterminate initial contents
vanish. -/
lemma advData_eq (junk : List Byte) (uuid : Nat) (sn : List Byte) (n : Nat)
    (hj : junk.length = ADVERTISING_MAX_DATALEN) (hns : n ≤ sn.length) :
    advData junk uuid sn n =
      [3, 3, uuid % 256, uuid / 256 % 256, (1 + n) % 256, 8] ++ sn.take n ++
        List.replicate (8 - n) 0 := by
  have hj14 : junk.length = 14 := hj
  unfold advData
  simp only [ADVERTISING_UUID_LEN, ADVERTISING_SHORTNAME_MAX_LEN]
  rw [memcpyAt_zero]
  simp only [List.length_singleton, List.singleton_append]
  rw [show ((2 + 1) % 256 :: junk.drop 1 : List Byte) = [(2 + 1) % 256] ++ junk.drop 1 from rfl,
    memcpyAt_at_append [(2 + 1) % 256] (junk.drop 1) [0x03] 1 (by rfl)]
  simp only [List.length_singleton, List.drop_drop]
  rw [show ([(2 + 1) % 256] ++ ([0x03] ++ junk.drop (1 + 1)) : List Byte) =
      [(2 + 1) % 256, 0x03] ++ junk.drop 2 from by simp,
    memcpyAt_at_append [(2 + 1) % 256, 0x03] (junk.drop 2) (u16le uuid) 2 (by rfl)]
  simp only [u16le, List.length_cons, List.length_singleton, List.length_nil, List.drop_drop]
  rw [show ([(2 + 1) % 256, 0x03] ++
        ([uuid % 256, uuid / 256 % 256] ++ junk.drop (2 + (0 + 1 + 1))) : List Byte) =
      [(2 + 1) % 256, 0x03, uuid % 256, uuid / 256 % 256] ++ junk.drop 4 from by simp,
    memcpyAt_at_append [(2 + 1) % 256, 0x03, uuid % 256, uuid / 256 % 256] (junk.drop 4)
      [(1 + n) % 256] (2 + 2) (by rfl)]
  simp only [List.length_singleton, List.drop_drop]
  rw [show ([(2 + 1) % 256, 0x03, uuid % 256, uuid / 256 % 256] ++
        ([(1 + n) % 256] ++ junk.drop (4 + 1)) : List Byte) =
      [(2 + 1) % 256, 0x03, uuid % 256, uuid / 256 % 256, (1 + n) % 256] ++ junk.drop 5
      from by simp,
    memcpyAt_at_append [(2 + 1) % 256, 0x03, uuid % 256, uuid / 256 % 256, (1 + n) % 256]
      (junk.drop 5) [0x08] (3 + 2) (by rfl)]
  simp only [List.length_singleton, List.drop_drop]
  rw [show ([(2 + 1) % 256, 0x03, uuid % 256, uuid / 256 % 256, (1 + n) % 256] ++
        ([0x08] ++ junk.drop (5 + 1)) : List Byte) =
      [(2 + 1) % 256, 0x03, uuid % 256, uuid / 256 % 256, (1 + n) % 256, 0x08] ++ junk.drop 6
      from by simp,
    memsetAt_at_append [(2 + 1) % 256, 0x03, uuid % 256, uuid / 256 % 256, (1 + n) % 256, 0x08]
      (junk.drop 6) (4 + 2) 8 (by rfl)]
  rw [List.drop_drop, List.drop_eq_nil_of_le (by omega : junk.length ≤ 6 + 8),
    List.append_nil,
    memcpyAt_at_append [(2 + 1) % 256, 0x03, uuid % 256, uuid / 256 % 256, (1 + n) % 256, 0x08]
      (List.replicate 8 0) (sn.take n) (4 + 2) (by rfl)]
  have hlen : (sn.take n).length = n := by
    rw [List.length_take]
    omega
  rw [hlen, List.drop_replicate]
  simp only [List.append_assoc]

/-- Normal form of `Mgmt::addAdvertising`'s full payload. -/
lemma addAdvRecord_payload (ctrl uuid : Nat) (sn junk : List Byte)
    (hj : junk.length = ADVERTISING_MAX_DATALEN) :
    (addAdvRecord ctrl sn uuid junk).payload =
      [1, 3, 0, 0, 0, 0, 0, 0, 0, 6 + min 8 sn.length, 0, 3, 3, uuid % 256,
        uuid / 256 % 256, 1 + min 8 sn.length, 8] ++ sn.take (min 8 sn.length) ++
      List.replicate (8 - min 8 sn.length) 0 := by
  have hmin : min 8 sn.length ≤ sn.length := Nat.min_le_right 8 sn.length
  have hmin8 : min 8 sn.length ≤ 8 := Nat.min_le_left 8 sn.length
  unfold addAdvRecord
  simp only [ADVERTISING_SHORTNAME_MAX_LEN] at *
  rw [advData_eq junk uuid sn (min 8 sn.length) hj hmin]
  simp only [u32le, u16le, ADVERTISING_MAX_DATALEN, ADVERTISING_SHORTNAME_MAX_LEN,
    ADVERTISING_UUID_LEN]
  rw [show (14 - (8 - min 8 sn.length)) % 256 = 6 + min 8 sn.length from by omega,
    show (1 + min 8 sn.length) % 256 = 1 + min 8 sn.length from by omega]
  simp

/-- Declared payload length of `Mgmt::addAdvertising`'s record. -/
lemma addAdvRecord_dataSize (ctrl uuid : Nat) (sn junk : List Byte) :
    (addAdvRecord ctrl sn uuid junk).header.dataSize = 17 + min 8 sn.length := by
  have hmin8 : min 8 sn.length ≤ 8 := Nat.min_le_left 8 sn.length
  unfold addAdvRecord
  simp only [ADVERTISING_SHORTNAME_MAX_LEN, ADVERTISING_MAX_DATALEN, ADVERTISING_UUID_LEN,
    hciHeaderSize]
  omega

/-! Helper lemmas about the truncation helpers. -/

lemma truncateName_of_le (name : List Byte) (h : name.length ≤ kMaxAdvertisingNameLength) :
    truncateName name = name := by
  unfold truncateName
  rw [if_pos h]

lemma truncateShortName_of_le (name : List Byte)
    (h : name.length ≤ kMaxAdvertisingShortNameLength) : truncateShortName name = name := by
  unfold truncateShortName
  rw [if_pos h]

lemma truncateName_length_le (name : List Byte) :
    (truncateName name).length ≤ kMaxAdvertisingNameLength := by
  unfold truncateName
  split
  · omega
  · simp [List.length_take]

lemma truncateShortName_length_le (name : List Byte) :
    (truncateShortName name).length ≤ kMaxAdvertisingShortNameLength := by
  unfold truncateShortName
  split
  · omega
  · simp [List.length_take]

lemma truncateName_subset (name : List Byte) (b : Byte) (h : b ∈ truncateName name) :
    b ∈ name := by
  unfold truncateName at h
  split at h
  · exact h
  · exact List.mem_of_mem_take h

lemma truncateShortName_subset (name : List Byte) (b : Byte)
    (h : b ∈ truncateShortName name) : b ∈ name := by
  unfold truncateShortName at h
  split at h
  · exact h
  · exact List.mem_of_mem_take h

/-! Helper lemmas about the static cache of `addAdvertising`. -/

/-- Once the statics are initialized to the pair `(s, u)`, they stay fixed and
every further call builds its record from the call's own arguments, or from
`(s, u)` when the `uuid` pointer is null. -/
lemma runAdvCalls_cached (ctrl : Nat) (junk s : List Byte) (u : Nat)
    (calls : List (List Byte × Option Nat)) :
    runAdvCalls ctrl junk (some (s, u)) calls =
      some (some (s, u), calls.map (fun c =>
        match c.2 with
        | none => addAdvRecord ctrl s u junk
        | some v => addAdvRecord ctrl c.1 v junk)) := by
  induction calls with
  | nil => rfl
  | cons head tail ih =>
    obtain ⟨sn, uu⟩ := head
    cases uu <;> simp [runAdvCalls, addAdvertisingBuild, ih]

lemma submitOnce_eq (sendCommand : CommandRecord → Bool) (request : CommandRecord) :
    submitOnce sendCommand request = (sendCommand request, [request]) := by
  cases h : sendCommand request <;> simp [submitOnce, h]

/-! Claim theorems. -/

/-- C5: for every string longer than the respective maximum, `truncateName`
returns exactly the maximum-length initial segment and `truncateShortName`
returns exactly the maximum-length initial segment; for every string at or
under the maximum, each returns the input unchanged. -/
theorem truncate_exact (s t : List Byte) :
    (kMaxAdvertisingNameLength < s.length →
      truncateName s = s.take kMaxAdvertisingNameLength ∧
      (truncateName s).length = kMaxAdvertisingNameLength) ∧
    (s.length ≤ kMaxAdvertisingNameLength → truncateName s = s) ∧
    (kMaxAdvertisingShortNameLength < t.length →
      truncateShortName t = t.take kMaxAdvertisingShortNameLength ∧
      (truncateShortName t).length = kMaxAdvertisingShortNameLength) ∧
    (t.length ≤ kMaxAdvertisingShortNameLength → truncateShortName t = t) := by
  refine ⟨fun h => ⟨?_, ?_⟩, fun h => truncateName_of_le s h,
    fun h => ⟨?_, ?_⟩, fun h => truncateShortName_of_le t h⟩
  · unfold truncateName
    rw [if_neg (by omega)]
  · unfold truncateName
    rw [if_neg (by omega), List.length_take]
    omega
  · unfold truncateShortName
    rw [if_neg (by omega)]
  · unfold truncateShortName
    rw [if_neg (by omega), List.length_take]
    omega

/-- Witness for C5 at a 3-byte name and an 11-byte short name. -/
theorem truncate_exact_witness :
    truncateShortName [1, 2, 3, 4, 5, 6, 7, 8, 9, 10, 11] =
      List.take kMaxAdvertisingShortNameLength [1, 2, 3, 4, 5, 6, 7, 8, 9, 10, 11] ∧
    truncateName [1, 2, 3] = [1, 2, 3] :=
  ⟨((truncate_exact [1, 2, 3] [1, 2, 3, 4, 5, 6, 7, 8, 9, 10, 11]).2.2.1 (by decide)).1,
    (truncate_exact [1, 2, 3] [1, 2, 3, 4, 5, 6, 7, 8, 9, 10, 11]).2.1 (by decide)⟩

/-- C6: `truncateName` and `truncateShortName` are (pure Lean functions and)
idempotent. -/
theorem truncate_idempotent (s : List Byte) :
    truncateName (truncateName s) = truncateName s ∧
    truncateShortName (truncateShortName s) = truncateShortName s :=
  ⟨truncateName_of_le (truncateName s) (truncateName_length_le s),
    truncateShortName_of_le (truncateShortName s) (truncateShortName_length_le s)⟩

/-- C8: `setDiscoverable` submits exactly the 1-byte mode followed by the
2-byte (little-endian) timeout, copied verbatim from its arguments with no
validation; in particular mode 2 with timeout 0 goes through unchanged (see
the witness). -/
theorem setDiscoverable_verbatim (ctrl disc timeout : Nat) (hd : disc < 256)
    (ht : timeout < 65536) :
    (setDiscoverable ctrl disc timeout).payload = [disc, timeout % 256, timeout / 256] ∧
    (setDiscoverable ctrl disc timeout).header.dataSize = 3 := by
  constructor
  · have h1 : disc % 256 = disc := Nat.mod_eq_of_lt hd
    have h2 : timeout / 256 % 256 = timeout / 256 := Nat.mod_eq_of_lt (by omega)
    simp [setDiscoverable, u16le, h1, h2]
  · rfl

/-- Witness for C8 at the limited-discoverable mode byte with a zero
timeout. -/
theorem setDiscoverable_verbatim_witness :
    (setDiscoverable 0 2 0).payload = [2, 0 % 256, 0 / 256] ∧
    (setDiscoverable 0 2 0).header.dataSize = 3 :=
  setDiscoverable_verbatim 0 2 0 (by decide) (by decide)

/-- C2: the payload built by `addAdvertising` is instance byte 1, a 4-byte
flags field holding 3, 2-byte duration 0, 2-byte timeout 0, the
advertising-data length byte, a zero scan-response length byte, then the data
block `[3][0x03][uuid, 2 bytes][1+n][0x08][n short-name bytes]` with
`n = min 8 shortName.length` and the data length declared as `14 - (8 - n)`
(the in-memory remainder of the fixed-capacity array is the zero fill). -/
theorem addAdvertising_payload_layout (ctrl uuid : Nat) (shortName junk : List Byte)
    (hj : junk.length = ADVERTISING_MAX_DATALEN) :
    (addAdvRecord ctrl shortName uuid junk).payload =
      [1] ++ u32le 3 ++ u16le 0 ++ u16le 0 ++
        [ADVERTISING_MAX_DATALEN -
          (ADVERTISING_SHORTNAME_MAX_LEN -
            min ADVERTISING_SHORTNAME_MAX_LEN shortName.length)] ++
        [0] ++
        ([ADVERTISING_UUID_LEN + 1, 0x03] ++ u16le uuid ++
          [1 + min ADVERTISING_SHORTNAME_MAX_LEN shortName.length, 0x08] ++
          shortName.take (min ADVERTISING_SHORTNAME_MAX_LEN shortName.length)) ++
        List.replicate (ADVERTISING_SHORTNAME_MAX_LEN -
          min ADVERTISING_SHORTNAME_MAX_LEN shortName.length) 0 := by
  have hmin8 : min 8 shortName.length ≤ 8 := Nat.min_le_left 8 shortName.length
  rw [addAdvRecord_payload ctrl uuid shortName junk hj]
  simp only [u32le, u16le, ADVERTISING_MAX_DATALEN, ADVERTISING_SHORTNAME_MAX_LEN,
    ADVERTISING_UUID_LEN]
  rw [show 2 + 8 + 2 + 2 - (8 - min 8 shortName.length) = 6 + min 8 shortName.length
    from by omega]
  simp

/-- Witness for C2 at the spec's 3-byte short name: the data block is 9 bytes
and `advDataLen` is `14 - (8 - 3) = 9`. -/
theorem addAdvertising_payload_layout_witness :
    (addAdvRecord 7 [65, 66, 67] 4660 (List.replicate 14 0)).payload =
      [1] ++ u32le 3 ++ u16le 0 ++ u16le 0 ++ [9] ++ [0] ++
        ([3, 0x03] ++ u16le 4660 ++ [4, 0x08] ++ [65, 66, 67]) ++
        List.replicate 5 0 :=
  addAdvertising_payload_layout 7 4660 [65, 66, 67] (List.replicate 14 0) rfl

/-- C10: `addAdvertising` applies its own 8-byte short-name cap, independent
of `truncateShortName`'s 10-byte cap: a short name of length 9 or 10 passes
`truncateShortName` unchanged, yet only its first 8 bytes are copied into the
data block and the name element's length byte is 9. -/
theorem addAdvertising_own_cap (ctrl uuid : Nat) (sn junk : List Byte)
    (hlen : sn.length = 9 ∨ sn.length = 10)
    (hj : junk.length = ADVERTISING_MAX_DATALEN) :
    truncateShortName sn = sn ∧
    (addAdvRecord ctrl sn uuid junk).payload.drop 15 = 9 :: 0x08 :: sn.take 8 ∧
    (sn.take 8).length = 8 := by
  have h8 : min 8 sn.length = 8 := Nat.min_eq_left (by omega)
  refine ⟨truncateShortName_of_le sn (by unfold kMaxAdvertisingShortNameLength; omega),
    ?_, ?_⟩
  · rw [addAdvRecord_payload ctrl uuid sn junk hj, h8]
    simp
  · rw [List.length_take]
    omega

/-- Witness for C10 at a 9-byte short name. -/
theorem addAdvertising_own_cap_witness :
    truncateShortName [1, 2, 3, 4, 5, 6, 7, 8, 9] = [1, 2, 3, 4, 5, 6, 7, 8, 9] ∧
    (addAdvRecord 0 [1, 2, 3, 4, 5, 6, 7, 8, 9] 4660 (List.replicate 14 0)).payload.drop 15 =
      9 :: 0x08 :: List.take 8 [1, 2, 3, 4, 5, 6, 7, 8, 9] ∧
    (List.take 8 [1, 2, 3, 4, 5, 6, 7, 8, 9]).length = 8 :=
  addAdvertising_own_cap 0 4660 [1, 2, 3, 4, 5, 6, 7, 8, 9] (List.replicate 14 0)
    (Or.inl rfl) rfl

/-- C4: the `setName` payload is a 249-byte name field followed by an 11-byte
short-name field, both zeroed before the truncated strings are copied so every
byte past each string is null, and the declared payload length is exactly
260.  The copied-verbatim part is stated for strings without interior null
bytes, which is what `snprintf`'s `%s` copies. -/
theorem setName_layout (ctrl : Nat) (name shortName junkName junkShort : List Byte)
    (hN : junkName.length = 249) (hS : junkShort.length = 11) :
    (setName ctrl name shortName junkName junkShort).header.dataSize = 260 ∧
    (setName ctrl name shortName junkName junkShort).payload.length = 260 ∧
    ((setName ctrl name shortName junkName junkShort).payload.take 249).drop
        (truncateName name).length =
      List.replicate (249 - (truncateName name).length) 0 ∧
    ((setName ctrl name shortName junkName junkShort).payload.drop 249).drop
        (truncateShortName shortName).length =
      List.replicate (11 - (truncateShortName shortName).length) 0 ∧
    ((∀ b ∈ name, b ≠ 0) →
      (setName ctrl name shortName junkName junkShort).payload.take 249 =
        truncateName name ++ List.replicate (249 - (truncateName name).length) 0) ∧
    ((∀ b ∈ shortName, b ≠ 0) →
      (setName ctrl name shortName junkName junkShort).payload.drop 249 =
        truncateShortName shortName ++
          List.replicate (11 - (truncateShortName shortName).length) 0) := by
  have hn : (truncateName name).length < 249 := by
    have := truncateName_length_le name
    unfold kMaxAdvertisingNameLength at this
    omega
  have hs : (truncateShortName shortName).length < 11 := by
    have := truncateShortName_length_le shortName
    unfold kMaxAdvertisingShortNameLength at this
    omega
  have hNlen : (setNameField 249 junkName (truncateName name)).length = 249 :=
    setNameField_length 249 junkName (truncateName name) hN hn
  have hSlen : (setNameField 11 junkShort (truncateShortName shortName)).length = 11 :=
    setNameField_length 11 junkShort (truncateShortName shortName) hS hs
  have htake : (setName ctrl name shortName junkName junkShort).payload.take 249 =
      setNameField 249 junkName (truncateName name) := by
    unfold setName
    exact List.take_left' hNlen
  have hdrop : (setName ctrl name shortName junkName junkShort).payload.drop 249 =
      setNameField 11 junkShort (truncateShortName shortName) := by
    unfold setName
    exact List.drop_left' hNlen
  refine ⟨rfl, ?_, ?_, ?_, ?_, ?_⟩
  · unfold setName
    simp only [List.length_append, hNlen, hSlen]
  · rw [htake]
    exact setNameField_drop 249 junkName (truncateName name) hN hn
  · rw [hdrop]
    exact setNameField_drop 11 junkShort (truncateShortName shortName) hS hs
  · intro hz
    rw [htake]
    exact setNameField_nullfree 249 junkName (truncateName name) hN hn
      (fun b hb => hz b (truncateName_subset name b hb))
  · intro hz
    rw [hdrop]
    exact setNameField_nullfree 11 junkShort (truncateShortName shortName) hS hs
      (fun b hb => hz b (truncateShortName_subset shortName b hb))

/-- Witness for C4 at a 2-byte name and a 1-byte short name. -/
theorem setName_layout_witness :
    (setName 0 [65, 66] [67] (List.replicate 249 9) (List.replicate 11 9)).header.dataSize
        = 260 ∧
    (setName 0 [65, 66] [67] (List.replicate 249 9) (List.replicate 11 9)).payload.length
        = 260 ∧
    ((setName 0 [65, 66] [67] (List.replicate 249 9)
        (List.replicate 11 9)).payload.take 249).drop (truncateName [65, 66]).length =
      List.replicate (249 - (truncateName [65, 66]).length) 0 ∧
    ((setName 0 [65, 66] [67] (List.replicate 249 9)
        (List.replicate 11 9)).payload.drop 249).drop (truncateShortName [67]).length =
      List.replicate (11 - (truncateShortName [67]).length) 0 ∧
    ((∀ b ∈ [65, 66], b ≠ 0) →
      (setName 0 [65, 66] [67] (List.replicate 249 9)
          (List.replicate 11 9)).payload.take 249 =
        truncateName [65, 66] ++ List.replicate (249 - (truncateName [65, 66]).length) 0) ∧
    ((∀ b ∈ [67], b ≠ 0) →
      (setName 0 [65, 66] [67] (List.replicate 249 9)
          (List.replicate 11 9)).payload.drop 249 =
        truncateShortName [67] ++
          List.replicate (11 - (truncateShortName [67]).length) 0) :=
  setName_layout 0 [65, 66] [67] (List.replicate 249 9) (List.replicate 11 9)
    (List.length_replicate 249 9) (List.length_replicate 11 9)

/-- C3: for every record-building operation, the declared payload length in
the header equals the number of payload bytes actually serialized after the
header; for `addAdvertising` that is the in-memory record size minus the
header and minus the bytes trimmed by the short-name truncation. -/
theorem declared_length_consistent (ctrl code ctrl2 state disc timeout uuid : Nat)
    (name shortName junkName junkShort sn junk : List Byte)
    (hN : junkName.length = 249) (hS : junkShort.length = 11)
    (hj : junk.length = ADVERTISING_MAX_DATALEN) :
    (setName ctrl name shortName junkName junkShort).header.dataSize =
      (setName ctrl name shortName junkName junkShort).payload.length ∧
    (setDiscoverable ctrl disc timeout).header.dataSize =
      (setDiscoverable ctrl disc timeout).payload.length ∧
    (setState code ctrl2 state).header.dataSize =
      (setState code ctrl2 state).payload.length ∧
    (addAdvRecord ctrl sn uuid junk).header.dataSize =
      (addAdvRecord ctrl sn uuid junk).payload.length -
        (ADVERTISING_SHORTNAME_MAX_LEN -
          min ADVERTISING_SHORTNAME_MAX_LEN sn.length) ∧
    (addAdvRecord ctrl sn uuid junk).header.dataSize ≤
      (addAdvRecord ctrl sn uuid junk).payload.length := by
  have hmin8 : min 8 sn.length ≤ 8 := Nat.min_le_left 8 sn.length
  have hmin : min 8 sn.length ≤ sn.length := Nat.min_le_right 8 sn.length
  have hplen : (addAdvRecord ctrl sn uuid junk).payload.length = 25 := by
    rw [addAdvRecord_payload ctrl uuid sn junk hj]
    simp only [List.length_append, List.length_cons, List.length_nil, List.length_take,
      List.length_replicate]
    omega
  refine ⟨?_, rfl, rfl, ?_, ?_⟩
  · have hn : (truncateName name).length < 249 := by
      have := truncateName_length_le name
      unfold kMaxAdvertisingNameLength at this
      omega
    have hs : (truncateShortName shortName).length < 11 := by
      have := truncateShortName_length_le shortName
      unfold kMaxAdvertisingShortNameLength at this
      omega
    unfold setName
    simp only [List.length_append,
      setNameField_length 249 junkName (truncateName name) hN hn,
      setNameField_length 11 junkShort (truncateShortName shortName) hS hs]
    rfl
  · rw [hplen, addAdvRecord_dataSize]
    simp only [ADVERTISING_SHORTNAME_MAX_LEN]
    omega
  · rw [hplen, addAdvRecord_dataSize]
    omega

/-- Witness for C3 at concrete arguments for every builder. -/
theorem declared_length_consistent_witness :
    (setName 0 [65] [66] (List.replicate 249 0) (List.replicate 11 0)).header.dataSize =
      (setName 0 [65] [66] (List.replicate 249 0) (List.replicate 11 0)).payload.length ∧
    (setDiscoverable 0 1 5).header.dataSize = (setDiscoverable 0 1 5).payload.length ∧
    (setState 5 0 1).header.dataSize = (setState 5 0 1).payload.length ∧
    (addAdvRecord 0 [65, 66, 67] 4660 (List.replicate 14 0)).header.dataSize =
      (addAdvRecord 0 [65, 66, 67] 4660 (List.replicate 14 0)).payload.length -
        (ADVERTISING_SHORTNAME_MAX_LEN -
          min ADVERTISING_SHORTNAME_MAX_LEN (List.length [65, 66, 67])) ∧
    (addAdvRecord 0 [65, 66, 67] 4660 (List.replicate 14 0)).header.dataSize ≤
      (addAdvRecord 0 [65, 66, 67] 4660 (List.replicate 14 0)).payload.length :=
  declared_length_consistent 0 5 0 1 1 5 4660 [65] [66] (List.replicate 249 0)
    (List.replicate 11 0) [65, 66, 67] (List.replicate 14 0) (List.length_replicate 249 0)
    (List.length_replicate 11 0) rfl

/-- C7: every public setter hands exactly one command record to the
transport's `sendCommand`, with no retry, and returns exactly `sendCommand`'s
boolean (false precisely when the transport reports failure).  The second
component of each result is the list of records passed to the transport. -/
theorem single_submission (sendCommand : CommandRecord → Bool)
    (ctrl code ctrl2 state sc adv disc timeout uuid : Nat)
    (name shortName junkName junkShort sn junk : List Byte) (b : Bool)
    (p : List Byte × Nat) :
    setNameRun sendCommand ctrl name shortName junkName junkShort =
      (sendCommand (setName ctrl name shortName junkName junkShort),
        [setName ctrl name shortName junkName junkShort]) ∧
    setDiscoverableRun sendCommand ctrl disc timeout =
      (sendCommand (setDiscoverable ctrl disc timeout),
        [setDiscoverable ctrl disc timeout]) ∧
    setStateRun sendCommand code ctrl2 state =
      (sendCommand (setState code ctrl2 state), [setState code ctrl2 state]) ∧
    setPoweredRun sendCommand ctrl b =
      (sendCommand (setState ESetPoweredCommand ctrl (if b then 1 else 0)),
        [setState ESetPoweredCommand ctrl (if b then 1 else 0)]) ∧
    setBredrRun sendCommand ctrl b =
      (sendCommand (setState ESetBREDRCommand ctrl (if b then 1 else 0)),
        [setState ESetBREDRCommand ctrl (if b then 1 else 0)]) ∧
    setSecureConnectionsRun sendCommand ctrl sc =
      (sendCommand (setState ESetSecureConnectionsCommand ctrl sc),
        [setState ESetSecureConnectionsCommand ctrl sc]) ∧
    setBondableRun sendCommand ctrl b =
      (sendCommand (setState ESetBondableCommand ctrl (if b then 1 else 0)),
        [setState ESetBondableCommand ctrl (if b then 1 else 0)]) ∧
    setConnectableRun sendCommand ctrl b =
      (sendCommand (setState ESetConnectableCommand ctrl (if b then 1 else 0)),
        [setState ESetConnectableCommand ctrl (if b then 1 else 0)]) ∧
    setLERun sendCommand ctrl b =
      (sendCommand (setState ESetLowEnergyCommand ctrl (if b then 1 else 0)),
        [setState ESetLowEnergyCommand ctrl (if b then 1 else 0)]) ∧
    setAdvertisingRun sendCommand ctrl adv =
      (sendCommand (setState ESetAdvertisingCommand ctrl adv),
        [setState ESetAdvertisingCommand ctrl adv]) ∧
    addAdvertisingRun sendCommand ctrl (some p) sn (some uuid) junk =
      some (some p, (sendCommand (addAdvRecord ctrl sn uuid junk),
        [addAdvRecord ctrl sn uuid junk])) ∧
    addAdvertisingRun sendCommand ctrl (some p) sn none junk =
      some (some p, (sendCommand (addAdvRecord ctrl p.1 p.2 junk),
        [addAdvRecord ctrl p.1 p.2 junk])) ∧
    addAdvertisingRun sendCommand ctrl none sn (some uuid) junk =
      some (some (sn, uuid), (sendCommand (addAdvRecord ctrl sn uuid junk),
        [addAdvRecord ctrl sn uuid junk])) := by
  obtain ⟨ps, pu⟩ := p
  refine ⟨?_, ?_, ?_, ?_, ?_, ?_, ?_, ?_, ?_, ?_, ?_, ?_, ?_⟩ <;>
    simp [setNameRun, setDiscoverableRun, setStateRun, setPoweredRun, setBredrRun,
      setSecureConnectionsRun, setBondableRun, setConnectableRun, setLERun,
      setAdvertisingRun, addAdvertisingRun, addAdvertisingBuild, submitOnce_eq]

/-- C9: under the precondition that the first-ever `addAdvertising` call
supplies a non-null `uuid` pointer, no call in the history ever dereferences
a null pointer while initializing the static fallback pair (the undefined
branch, modelled as `none`, is unreachable); a history whose first call
passes null is undefined. -/
theorem addAdvertising_first_call_guard (ctrl : Nat) (junk sn0 sn : List Byte)
    (u0 : Nat) (rest rest2 : List (List Byte × Option Nat)) :
    (addAdvertisingTrace ctrl junk ((sn0, some u0) :: rest)).isSome = true ∧
    addAdvertisingTrace ctrl junk ((sn, none) :: rest2) = none := by
  constructor
  · simp [addAdvertisingTrace, runAdvCalls, addAdvertisingBuild, runAdvCalls_cached]
  · simp [addAdvertisingTrace, runAdvCalls, addAdvertisingBuild]

/-- Counterexample to C1 as frozen: in the call history
`addAdvertising("A", 17); addAdvertising("B", 34); addAdvertising("C", null)`
the third record is built from the FIRST call's pair `("A", 17)`; it differs
from the record the claim demands, built from the most recent preceding
non-null call's pair `("B", 34)`. -/
theorem addAdvertising_null_not_most_recent :
    addAdvertisingTrace 0 (List.replicate 14 0)
        [([65], some 17), ([66], some 34), ([67], none)] =
      some (some ([65], 17),
        [addAdvRecord 0 [65] 17 (List.replicate 14 0),
         addAdvRecord 0 [66] 34 (List.replicate 14 0),
         addAdvRecord 0 [65] 17 (List.replicate 14 0)]) ∧
    addAdvRecord 0 [65] 17 (List.replicate 14 0) ≠
      addAdvRecord 0 [66] 34 (List.replicate 14 0) := by
  constructor
  · rfl
  · decide

/-- C1 (amended): a null-uuid call substitutes the short name and UUID cached
by the function-local `static` initializers, which hold the pair of the
FIRST call ever made (here assumed non-null, else the history is undefined),
not of the most recent preceding non-null call. -/
theorem addAdvertising_null_uses_first_call (ctrl : Nat) (junk sn0 : List Byte)
    (u0 : Nat) (rest : List (List Byte × Option Nat)) (i : Nat)
    (cache : AdvCache) (recs : List CommandRecord)
    (hi : i < rest.length) (hnull : (rest.get ⟨i, hi⟩).2 = none)
    (htr : addAdvertisingTrace ctrl junk ((sn0, some u0) :: rest) =
      some (cache, recs)) :
    recs[i + 1]? = some (addAdvRecord ctrl sn0 u0 junk) := by
  simp only [addAdvertisingTrace, runAdvCalls, addAdvertisingBuild,
    runAdvCalls_cached ctrl junk sn0 u0 rest, Option.some.injEq, Prod.mk.injEq] at htr
  obtain ⟨hc, hr⟩ := htr
  subst hr
  rw [List.getElem?_cons_succ, List.getElem?_map, List.getElem?_eq_getElem hi]
  rw [List.get_eq_getElem] at hnull
  simp [hnull]

/-- Witness for the amended C1: a two-call history whose second call passes a
null uuid reuses the first call's pair. -/
theorem addAdvertising_null_uses_first_call_witness :
    [addAdvRecord 0 [65] 17 (List.replicate 14 0),
      addAdvRecord 0 [65] 17 (List.replicate 14 0)][0 + 1]? =
      some (addAdvRecord 0 [65] 17 (List.replicate 14 0)) :=
  addAdvertising_null_uses_first_call 0 (List.replicate 14 0) [65] 17
    [([66], none)] 0 (some ([65], 17))
    [addAdvRecord 0 [65] 17 (List.replicate 14 0),
      addAdvRecord 0 [65] 17 (List.replicate 14 0)]
    (by decide) rfl rfl

end Ggk
